import Mathlib

/-!
Shallow embedding of the ESP32-S2 GIF player control logic (src/code.py):
the debounced button source (`button_pressed`), the playback session
(`play_gif`), the cyclic asset-index arithmetic of the main loop, the clock
presenter (`update_clock_display`), and the top-level mode-controller loop
body.  Time is modelled by the rationals; hardware reads and decode calls are
modelled by explicit inputs describing what each external call returned (or
that it raised).
-/

namespace GifPlayer

/-! ### Debounced button source (src/code.py lines 49-63, 74-75, 208-236) -/

/-- One navigation direction string returned by `button_pressed`:
`"next"`, `"previous"` or `"mode"`. -/
inductive Direction where
  | next
  | previous
  | mode
deriving DecidableEq, Repr

/-- `PhysicalButton`: holds `last_state`, the level sampled by the previous
read (`True` = logical high, released, for pull-up wiring). -/
structure PhysicalButton where
  lastState : Bool
deriving DecidableEq, Repr

/-- `PhysicalButton.pressed()`: samples the current level, reports a falling
edge (`last_state is True and current_state is False`) and stores the new
level into `last_state`.  Returns (updated button, pressed flag). -/
def pressedRead (b : PhysicalButton) (currentState : Bool) :
    PhysicalButton × Bool :=
  (⟨currentState⟩, b.lastState && !currentState)

/-- `BUTTON_COOLDOWN = 0.5` seconds (line 74). -/
def BUTTON_COOLDOWN : ℚ := 1/2

/-- The module-level state touched by `button_pressed`: the shared
`last_button_press` timestamp and the three `PhysicalButton` objects. -/
structure ButtonsState where
  lastButtonPress : ℚ
  nextB : PhysicalButton
  prevB : PhysicalButton
  modeB : PhysicalButton
deriving DecidableEq, Repr

/-- What the external world supplies to one call of `button_pressed`: the
value of `time.monotonic()`, the three instantaneous pin levels, and
whether a hardware read raised.  `failAfter = some k` means the
`(k+1)`-th `.pressed()` call (order: next, prev, mode) raised after `k`
calls completed; `none` means all three reads succeeded. -/
structure PollInput where
  t : ℚ
  nextLevel : Bool
  prevLevel : Bool
  modeLevel : Bool
  failAfter : Option (Fin 3)
deriving DecidableEq, Repr

/-- `button_pressed()` (lines 208-236).  Returns the updated module state,
the `pressed` flag and the direction.  Within the cooldown window it
returns `(False, None)` without touching any state; a read failure is
caught and yields `(False, None)`, keeping the `last_state` updates of the
reads that completed; otherwise the `elif` chain picks `"mode"` first,
then `"next"` (only if prev did not fire), then `"previous"` (only if
next did not fire), updating `last_button_press` exactly on acceptance. -/
def button_pressed (s : ButtonsState) (inp : PollInput) :
    ButtonsState × Bool × Option Direction :=
  if inp.t - s.lastButtonPress < BUTTON_COOLDOWN then
    (s, false, none)
  else
    match inp.failAfter with
    | some k =>
      -- the reads that completed before the exception updated their state
      let s1 := if 0 < k.val then { s with nextB := ⟨inp.nextLevel⟩ } else s
      let s2 := if 1 < k.val then { s1 with prevB := ⟨inp.prevLevel⟩ } else s1
      (s2, false, none)
    | none =>
      let np := (pressedRead s.nextB inp.nextLevel).2
      let pp := (pressedRead s.prevB inp.prevLevel).2
      let mp := (pressedRead s.modeB inp.modeLevel).2
      let s1 : ButtonsState :=
        { lastButtonPress := s.lastButtonPress
          nextB := (pressedRead s.nextB inp.nextLevel).1
          prevB := (pressedRead s.prevB inp.prevLevel).1
          modeB := (pressedRead s.modeB inp.modeLevel).1 }
      if mp then
        ({ s1 with lastButtonPress := inp.t }, true, some Direction.mode)
      else if np && !pp then
        ({ s1 with lastButtonPress := inp.t }, true, some Direction.next)
      else if pp && !np then
        ({ s1 with lastButtonPress := inp.t }, true, some Direction.previous)
      else
        (s1, false, none)

/-- Run a sequence of polls through `button_pressed`, collecting the
timestamps of the accepted events in trace order. -/
def runPolls (s : ButtonsState) : List PollInput → ButtonsState × List ℚ
  | [] => (s, [])
  | p :: rest =>
    let r := button_pressed s p
    let r2 := runPolls r.1 rest
    (r2.1, if r.2.1 then p.t :: r2.2 else r2.2)

/-! ### Playback session `play_gif` (src/code.py lines 253-292) -/

/-- The values `play_gif` can produce: the three direction strings, the
`"error"` string from the `except` handler, and `True` from the
statement after the frame loop. -/
inductive PlayResult where
  | next
  | previous
  | mode
  | error
  | trueVal
deriving DecidableEq, Repr

def dirToResult : Direction → PlayResult
  | Direction.next => PlayResult.next
  | Direction.previous => PlayResult.previous
  | Direction.mode => PlayResult.mode

/-- What one iteration of the frame loop observed: `press d` means
`button_pressed` returned `(True, d)`; `noPress` means no event and the
frame-pacing branch ran normally; `raised` means some call in the
iteration (for example `odg.next_frame()`) raised. -/
inductive LoopEvent where
  | press (d : Direction)
  | noPress
  | raised
deriving DecidableEq, Repr

/-- Outcome of one `play_gif` session: `running` means the frame loop has
not exited within the supplied trace of iterations; `returned r deinit`
means the function returned value `r`, with `deinit` recording whether
`odg.deinit()` was executed on that path. -/
inductive SessionOutcome where
  | running
  | returned (r : PlayResult) (deinit : Bool)
deriving DecidableEq, Repr

/-- The loop guard of the frame loop, literally `while True:` (line 273). -/
def loopCond : Bool := true

/-- The frame loop of `play_gif`.  Each iteration first re-tests the guard;
a press returns the direction immediately (no `odg.deinit()` on this
path), an exception is caught by the enclosing `except` and returns
`"error"` (again without `deinit`), otherwise the loop continues.  Were
the guard ever false, control would fall through to
`odg.deinit(); gc.collect(); return True` (lines 286-288). -/
def frameLoop : List LoopEvent → SessionOutcome
  | [] => SessionOutcome.running
  | e :: rest =>
    if loopCond then
      match e with
      | LoopEvent.press d => SessionOutcome.returned (dirToResult d) false
      | LoopEvent.raised => SessionOutcome.returned PlayResult.error false
      | LoopEvent.noPress => frameLoop rest
    else
      SessionOutcome.returned PlayResult.trueVal true

/-- `play_gif(gif_path)`: if `gifio.OnDiskGif` (or any of the setup before
the loop) raises, the `except` handler returns `"error"`; otherwise the
frame loop runs. -/
def play_gif (openOk : Bool) (evs : List LoopEvent) : SessionOutcome :=
  if openOk then frameLoop evs
  else SessionOutcome.returned PlayResult.error false

/-! ### Cyclic index arithmetic of the main loop (lines 329, 333, 339) -/

/-- `current_gif_index = (current_gif_index + 1) % len(gif_files)`.
Python `%` with a positive divisor agrees with `Int.emod`. -/
def advance_next (i : ℤ) (n : ℤ) : ℤ := (i + 1) % n

/-- `current_gif_index = (current_gif_index - 1) % len(gif_files)`. -/
def advance_prev (i : ℤ) (n : ℤ) : ℤ := (i - 1) % n

/-! ### Clock presenter (src/code.py lines 101-132) -/

/-- The fields of `time.localtime()` used by `update_clock_display`. -/
structure Tm where
  tm_year : ℕ
  tm_mon : ℕ
  tm_mday : ℕ
  tm_hour : ℕ
  tm_min : ℕ
  tm_sec : ℕ
deriving DecidableEq, Repr

/-- Python `"{:02d}".format(n)` for a natural number. -/
def pad2 (n : ℕ) : String := if n < 10 then "0" ++ toString n else toString n

/-- Python `"{:04d}".format(n)` for a natural number. -/
def pad4 (n : ℕ) : String :=
  if n < 10 then "000" ++ toString n
  else if n < 100 then "00" ++ toString n
  else if n < 1000 then "0" ++ toString n
  else toString n

/-- The `hour_12` computation: `hour_12 = now.tm_hour % 12`, then
`if hour_12 == 0: hour_12 = 12`. -/
def hour_12 (h : ℕ) : ℕ :=
  let h12 := h % 12
  if h12 = 0 then 12 else h12

/-- The `period` computation: `"AM" if now.tm_hour < 12 else "PM"`. -/
def periodOf (h : ℕ) : String := if h < 12 then "AM" else "PM"

/-- `time_str = "{:02d}:{:02d}:{:02d} {}".format(hour_12, tm_min, tm_sec,
period)`. -/
def timeStr (now : Tm) : String :=
  pad2 (hour_12 now.tm_hour) ++ ":" ++ pad2 now.tm_min ++ ":"
    ++ pad2 now.tm_sec ++ " " ++ periodOf now.tm_hour

/-- `date_str = "{:04d}-{:02d}-{:02d}".format(tm_year, tm_mon, tm_mday)`. -/
def dateStr (now : Tm) : String :=
  pad4 now.tm_year ++ "-" ++ pad2 now.tm_mon ++ "-" ++ pad2 now.tm_mday

/-- The text currently held by the two persistent labels. -/
structure Labels where
  timeText : String
  dateText : String
deriving DecidableEq, Repr

/-- Where, if anywhere, an exception arises inside the `try` of
`update_clock_display`, in source order: the `time.localtime()` call, the
time-string formatting, the `time_label.text` assignment, the date-string
formatting, the `date_label.text` assignment.  (In CPython the two
formatting steps are total on integers, so only the external calls can in
fact raise; the points are kept so the mutation order is explicit.) -/
inductive ClockFailPoint where
  | localtime
  | formatTime
  | setTimeLabel
  | formatDate
  | setDateLabel
deriving DecidableEq, Repr

/-- `update_clock_display()` (lines 114-132): the whole body is wrapped in
`try/except`, so a failure at any point keeps exactly the label texts
already written before that point.  `time_label.text` is assigned before
the date string is computed. -/
def update_clock_display (now : Tm) (fail : Option ClockFailPoint)
    (l : Labels) : Labels :=
  match fail with
  | some ClockFailPoint.localtime => l
  | some ClockFailPoint.formatTime => l
  | some ClockFailPoint.setTimeLabel => l
  | some ClockFailPoint.formatDate => { l with timeText := timeStr now }
  | some ClockFailPoint.setDateLabel => { l with timeText := timeStr now }
  | none => { timeText := timeStr now, dateText := dateStr now }

/-! ### Mode controller: `switch_mode` and the main loop (lines 134-145,
320-354) -/

/-- `current_mode`, the string `"gif"` or `"clock"`. -/
inductive Mode where
  | gif
  | clock
deriving DecidableEq, Repr

/-- `switch_mode()` toggles `current_mode` (and swaps the root display
group; entering clock mode also refreshes the clock once).  It never
touches `current_gif_index`. -/
def switch_mode : Mode → Mode
  | Mode.gif => Mode.clock
  | Mode.clock => Mode.gif

/-- The mutable state of the main loop: the mode, the navigation index and
the (fixed) `len(gif_files)`. -/
structure SysState where
  mode : Mode
  index : ℤ
  nGifs : ℤ
deriving DecidableEq, Repr

/-- Observable side effects of one tick of the main loop. -/
inductive Effect where
  | interstitial
  | clockUpdate
  | sleep (d : ℚ)
  | errorMsg (d : ℚ)
deriving DecidableEq, Repr

/-- The `if result == ...` chain of the gif-mode branch (lines 327-340):
`"next"` and the `else` fallthrough (which receives `"error"` and `True`)
advance forward, `"previous"` advances backward, `"mode"` calls
`switch_mode` (entering clock mode refreshes the clock immediately). -/
def gif_result_step (s : SysState) (r : PlayResult) :
    SysState × List Effect :=
  match r with
  | PlayResult.next =>
    ({ s with index := advance_next s.index s.nGifs }, [Effect.interstitial])
  | PlayResult.previous =>
    ({ s with index := advance_prev s.index s.nGifs }, [Effect.interstitial])
  | PlayResult.mode =>
    ({ s with mode := switch_mode s.mode }, [Effect.clockUpdate])
  | _ =>
    ({ s with index := advance_next s.index s.nGifs }, [Effect.interstitial])

/-- The clock-mode branch (lines 341-349): refresh the clock, sleep one
second, poll once; only `(True, "mode")` triggers `switch_mode`. -/
def clock_step (s : SysState) (ev : Option Direction) :
    SysState × List Effect :=
  if ev = some Direction.mode then
    ({ s with mode := switch_mode s.mode },
      [Effect.clockUpdate, Effect.sleep 1])
  else
    (s, [Effect.clockUpdate, Effect.sleep 1])

/-- What the environment supplies to one tick of the main loop: whether an
uncaught exception escapes the tick body, whether `play_gif`'s setup
succeeded and the frame-loop trace (used in gif mode), and the poll
result (used in clock mode). -/
structure TickEnv where
  raised : Bool
  openOk : Bool
  evs : List LoopEvent
  clockEv : Option Direction
deriving DecidableEq, Repr

/-- One iteration of `while True: try: ... except:` (lines 320-354).  The
`except` handler prints, shows `"Fatal error, resetting"` for two
seconds and sets `current_gif_index = 0`; it does not change
`current_mode` and never re-raises, so the loop always continues.
`none` means the tick has not finished (the frame loop of `play_gif` is
still running within the supplied trace). -/
def mainStep (s : SysState) (env : TickEnv) :
    Option (SysState × List Effect) :=
  if env.raised then
    some ({ s with index := 0 }, [Effect.errorMsg 2])
  else
    match s.mode with
    | Mode.gif =>
      match play_gif env.openOk env.evs with
      | SessionOutcome.running => none
      | SessionOutcome.returned r _ => some (gif_result_step s r)
    | Mode.clock => some (clock_step s env.clockEv)

/-! ### Helper lemmas -/

/-- Characterisation of `button_pressed`'s effect on `last_button_press`:
it is set to the poll time exactly on an accepted event, an accepted
event requires the cooldown to have elapsed, and a rejected poll leaves
the timestamp untouched. -/
lemma button_pressed_lbp (s : ButtonsState) (p : PollInput) :
    ((button_pressed s p).2.1 = true →
      (button_pressed s p).1.lastButtonPress = p.t
        ∧ BUTTON_COOLDOWN ≤ p.t - s.lastButtonPress)
    ∧ ((button_pressed s p).2.1 = false →
      (button_pressed s p).1.lastButtonPress = s.lastButtonPress) := by
  unfold button_pressed
  by_cases hc : p.t - s.lastButtonPress < BUTTON_COOLDOWN
  · simp [hc]
  · simp only [hc, if_false]
    match p.failAfter with
    | some k =>
      refine ⟨by simp, fun hf => ?_⟩
      fin_cases k <;> rfl
    | none =>
      split_ifs <;> simp [le_of_not_lt hc]

/-- Running the polls keeps the accepted-event timestamps at least one
cooldown apart, chaining from the stored `last_button_press`. -/
lemma runPolls_chain (s : ButtonsState) (polls : List PollInput) :
    List.Chain' (fun a b => BUTTON_COOLDOWN ≤ b - a)
      (s.lastButtonPress :: (runPolls s polls).2) := by
  induction polls generalizing s with
  | nil => simp [runPolls]
  | cons p rest ih =>
    rw [runPolls]
    by_cases h : (button_pressed s p).2.1
    · simp only [h, if_true]
      rw [List.chain'_cons]
      have h1 := (button_pressed_lbp s p).1 h
      refine ⟨h1.2, ?_⟩
      have h2 := ih (button_pressed s p).1
      rwa [h1.1] at h2
    · simp only [h, if_false]
      have h1 := (button_pressed_lbp s p).2 (Bool.not_eq_true _ ▸ h)
      have h2 := ih (button_pressed s p).1
      rwa [h1] at h2

/-- Stepping `advance_next` from a reduced index is the same as stepping it
from the unreduced one. -/
lemma advance_next_emod_left (n a : ℤ) :
    advance_next (a % n) n = advance_next a n := by
  unfold advance_next
  conv_lhs => rw [Int.add_emod, Int.emod_emod_of_dvd a dvd_rfl, ← Int.add_emod]

/-- Stepping `advance_prev` from a reduced index is the same as stepping it
from the unreduced one. -/
lemma advance_prev_emod_left (n a : ℤ) :
    advance_prev (a % n) n = advance_prev a n := by
  unfold advance_prev
  conv_lhs => rw [Int.sub_emod, Int.emod_emod_of_dvd a dvd_rfl, ← Int.sub_emod]

/-- Iterating the forward advance k times from a reduced index adds k,
modulo the asset count. -/
lemma iterate_advance_next (n : ℤ) (k : ℕ) : ∀ a : ℤ,
    (fun j => advance_next j n)^[k] (a % n) = (a + k) % n := by
  induction k with
  | zero => simp
  | succ k ih =>
    intro a
    rw [Function.iterate_succ_apply]
    have h1 : advance_next (a % n) n = (a + 1) % n := advance_next_emod_left n a
    simp only [h1]
    rw [ih (a + 1)]
    congr 1
    push_cast
    ring

/-- Iterating the backward advance k times from a reduced index subtracts
k, modulo the asset count. -/
lemma iterate_advance_prev (n : ℤ) (k : ℕ) : ∀ a : ℤ,
    (fun j => advance_prev j n)^[k] (a % n) = (a - k) % n := by
  induction k with
  | zero => simp
  | succ k ih =>
    intro a
    rw [Function.iterate_succ_apply]
    have h1 : advance_prev (a % n) n = (a - 1) % n := advance_prev_emod_left n a
    simp only [h1]
    rw [ih (a - 1)]
    congr 1
    push_cast
    ring

/-! ### Claim theorems -/

/-- C1 (counterexample): an uncaught error during a Clock-mode tick leaves
the loop in Clock mode — the resulting mode is not `"gif"` — refuting the
claim that the loop continues in Playback mode after any such error (the
index is reset to 0 and the error message is shown, but `current_mode` is
not touched by the `except` handler). -/
theorem mainStep_error_in_clock_mode_cex :
    mainStep ⟨Mode.clock, 3, 5⟩ ⟨true, true, [], none⟩
      = some (⟨Mode.clock, 0, 5⟩, [Effect.errorMsg 2])
    ∧ Option.map (fun r => decide (r.1.mode = Mode.gif))
        (mainStep ⟨Mode.clock, 3, 5⟩ ⟨true, true, [], none⟩) = some false :=
  ⟨rfl, rfl⟩

/-- C1 (amended): for every uncaught error raised during a top-level tick
of the main loop, in either mode, the error is caught, a generic error
message is shown for ~2 time-units, the navigation index is reset to 0,
and the loop continues in the mode that was active when the error
occurred; the process never terminates on such an error. -/
theorem mainStep_error_recovery :
    ∀ (s : SysState) (openOk : Bool) (evs : List LoopEvent)
      (ev : Option Direction),
      mainStep s ⟨true, openOk, evs, ev⟩
        = some ({ s with index := 0 }, [Effect.errorMsg 2]) := by
  intro s openOk evs ev
  rfl

/-- C2 (code evaluated at the failing inputs): when `play_gif` returns due
to a button interruption — result `"next"`, `"previous"` or `"mode"` —
the `deinit` flag of the outcome is `false`: `odg.deinit()` was never
executed, because the only `deinit` call of `play_gif` sits after the
non-terminating `while True:` loop and the in-loop `return direction`
bypasses it. -/
theorem play_gif_interrupt_skips_deinit :
    play_gif true [LoopEvent.press Direction.next]
      = SessionOutcome.returned PlayResult.next false
    ∧ play_gif true [LoopEvent.press Direction.previous]
      = SessionOutcome.returned PlayResult.previous false
    ∧ play_gif true [LoopEvent.press Direction.mode]
      = SessionOutcome.returned PlayResult.mode false :=
  ⟨rfl, rfl, rfl⟩

/-- C3: over any sequence of polls with any pattern of button edges, the
timestamps of accepted events are pairwise at least one cooldown
(0.5 time-units) apart, chaining from the stored last-accepted
timestamp; and a single poll updates the shared `last_button_press`
exactly on acceptance (to the poll time) and never on rejection. -/
theorem debounce_cooldown_invariant :
    (∀ (s : ButtonsState) (polls : List PollInput),
      List.Chain' (fun a b => BUTTON_COOLDOWN ≤ b - a)
        (s.lastButtonPress :: (runPolls s polls).2))
    ∧ (∀ (s : ButtonsState) (p : PollInput),
        (button_pressed s p).2.1 = false →
          (button_pressed s p).1.lastButtonPress = s.lastButtonPress)
    ∧ (∀ (s : ButtonsState) (p : PollInput),
        (button_pressed s p).2.1 = true →
          (button_pressed s p).1.lastButtonPress = p.t
            ∧ BUTTON_COOLDOWN ≤ p.t - s.lastButtonPress) :=
  ⟨runPolls_chain,
   fun s p => (button_pressed_lbp s p).2,
   fun s p => (button_pressed_lbp s p).1⟩

/-- C3 (witness): concrete polls exercising the theorem — a poll inside the
cooldown window (time 0 against stored timestamp 0) is rejected and
leaves the timestamp at 0; an accepted mode-edge poll at time 1 sets it
to 1; and a two-poll trace yields a cooldown-separated chain. -/
theorem debounce_cooldown_invariant_witness :
    List.Chain' (fun a b => BUTTON_COOLDOWN ≤ b - a)
      ((0 : ℚ) :: (runPolls ⟨0, ⟨true⟩, ⟨true⟩, ⟨true⟩⟩
        [⟨1, true, true, false, none⟩, ⟨2, true, false, true, none⟩]).2)
    ∧ (button_pressed ⟨0, ⟨true⟩, ⟨true⟩, ⟨true⟩⟩
        ⟨0, true, true, false, none⟩).1.lastButtonPress = 0
    ∧ (button_pressed ⟨0, ⟨true⟩, ⟨true⟩, ⟨true⟩⟩
        ⟨1, true, true, false, none⟩).1.lastButtonPress = 1 :=
  ⟨debounce_cooldown_invariant.1 ⟨0, ⟨true⟩, ⟨true⟩, ⟨true⟩⟩
      [⟨1, true, true, false, none⟩, ⟨2, true, false, true, none⟩],
   debounce_cooldown_invariant.2.1 ⟨0, ⟨true⟩, ⟨true⟩, ⟨true⟩⟩
      ⟨0, true, true, false, none⟩
      (by norm_num [button_pressed, BUTTON_COOLDOWN]),
   (debounce_cooldown_invariant.2.2 ⟨0, ⟨true⟩, ⟨true⟩, ⟨true⟩⟩
      ⟨1, true, true, false, none⟩
      (by norm_num [button_pressed, pressedRead, BUTTON_COOLDOWN])).1⟩

/-- C4: with a nonzero asset count N and any starting index in [0, N),
iterating the main loop's forward advance `(i + 1) % N` N times returns
to the start, likewise for the backward advance `(i - 1) % N`, and both
always land in [0, N) (so they wrap at the ends). -/
theorem cyclic_advance_roundtrip (N : ℕ) (i : ℤ) (h1 : 0 < N)
    (h2 : 0 ≤ i) (h3 : i < (N : ℤ)) :
    (fun j => advance_next j N)^[N] i = i
    ∧ (fun j => advance_prev j N)^[N] i = i
    ∧ (∀ j : ℤ, 0 ≤ advance_next j N ∧ advance_next j N < N
        ∧ 0 ≤ advance_prev j N ∧ advance_prev j N < N) := by
  have hn0 : (N : ℤ) ≠ 0 := by exact_mod_cast h1.ne'
  have hnpos : (0 : ℤ) < N := by exact_mod_cast h1
  have hi : i % (N : ℤ) = i := Int.emod_eq_of_lt h2 h3
  refine ⟨?_, ?_, ?_⟩
  · conv_lhs => rw [← hi]
    rw [iterate_advance_next (N : ℤ) N i]
    have h4 : i + (N : ℤ) = i + (N : ℤ) * 1 := by ring
    rw [h4, Int.add_mul_emod_self_left, hi]
  · conv_lhs => rw [← hi]
    rw [iterate_advance_prev (N : ℤ) N i]
    have : i - (N : ℤ) = i + (N : ℤ) * (-1) := by ring
    rw [this, Int.add_mul_emod_self_left, hi]
  · intro j
    exact ⟨Int.emod_nonneg _ hn0, Int.emod_lt_of_pos _ hnpos,
      Int.emod_nonneg _ hn0, Int.emod_lt_of_pos _ hnpos⟩

/-- C4 (witness): the round-trip and range facts at N = 3, i = 1. -/
theorem cyclic_advance_roundtrip_witness :
    (fun j => advance_next j (3 : ℕ))^[3] (1 : ℤ) = 1
    ∧ (fun j => advance_prev j (3 : ℕ))^[3] (1 : ℤ) = 1
    ∧ (∀ j : ℤ, 0 ≤ advance_next j (3 : ℕ) ∧ advance_next j (3 : ℕ) < (3 : ℕ)
        ∧ 0 ≤ advance_prev j (3 : ℕ) ∧ advance_prev j (3 : ℕ) < (3 : ℕ)) :=
  cyclic_advance_roundtrip 3 1 (by norm_num) (by norm_num) (by norm_num)

/-- C5: in one poll past the cooldown with all reads succeeding, a
qualifying edge on the mode button makes the reported event `"mode"`
whatever the other buttons do; and qualifying edges on both next and
previous with no qualifying mode edge report no event at all. -/
theorem poll_tiebreak (s : ButtonsState) (p : PollInput)
    (hcool : BUTTON_COOLDOWN ≤ p.t - s.lastButtonPress)
    (hok : p.failAfter = none) :
    (s.modeB.lastState = true → p.modeLevel = false →
      (button_pressed s p).2 = (true, some Direction.mode))
    ∧ (s.nextB.lastState = true → p.nextLevel = false →
        s.prevB.lastState = true → p.prevLevel = false →
        (s.modeB.lastState && !p.modeLevel) = false →
      (button_pressed s p).2 = (false, none)) := by
  have hc : ¬ (p.t - s.lastButtonPress < BUTTON_COOLDOWN) := not_lt.mpr hcool
  constructor
  · intro hm1 hm2
    simp [button_pressed, hc, hok, pressedRead, hm1, hm2]
  · intro hn1 hn2 hp1 hp2 hm
    simp [button_pressed, hc, hok, pressedRead, hn1, hn2, hp1, hp2, hm]

/-- C5 (witness): the tie-break at concrete inputs — mode+next+previous
edges together report `"mode"`; next+previous edges with the mode button
idle report nothing. -/
theorem poll_tiebreak_witness :
    (button_pressed ⟨0, ⟨true⟩, ⟨true⟩, ⟨true⟩⟩
        ⟨1, false, false, false, none⟩).2 = (true, some Direction.mode)
    ∧ (button_pressed ⟨0, ⟨true⟩, ⟨true⟩, ⟨false⟩⟩
        ⟨1, false, false, true, none⟩).2 = (false, none) :=
  ⟨(poll_tiebreak ⟨0, ⟨true⟩, ⟨true⟩, ⟨true⟩⟩ ⟨1, false, false, false, none⟩
      (by norm_num [BUTTON_COOLDOWN]) rfl).1 rfl rfl,
   (poll_tiebreak ⟨0, ⟨true⟩, ⟨true⟩, ⟨false⟩⟩ ⟨1, false, false, true, none⟩
      (by norm_num [BUTTON_COOLDOWN]) rfl).2 rfl rfl rfl rfl (by simp)⟩

/-- C6: when opening the asset fails, the playback session returns the
`"error"` outcome, and the main loop's tick on that outcome shows an
interstitial, advances the index to (k+1) mod N, stays in gif mode and
produces a successor state (no halt). -/
theorem open_failure_advances_index :
    ∀ (i n : ℤ) (evs : List LoopEvent) (ev : Option Direction),
      play_gif false evs = SessionOutcome.returned PlayResult.error false
      ∧ mainStep ⟨Mode.gif, i, n⟩ ⟨false, false, evs, ev⟩
          = some (⟨Mode.gif, (i + 1) % n, n⟩, [Effect.interstitial]) := by
  intro i n evs ev
  exact ⟨rfl, rfl⟩

/-- C7: a `SwitchMode` result in gif mode followed by a `"mode"` event in
clock mode returns to gif mode with the same index; a clock-mode tick
never mutates the index; and clock-mode ticks on `"next"`, `"previous"`
or no event leave the whole state unchanged. -/
theorem mode_roundtrip_preserves_index :
    (∀ (i n : ℤ),
      (gif_result_step ⟨Mode.gif, i, n⟩ PlayResult.mode).1 = ⟨Mode.clock, i, n⟩
      ∧ (clock_step ⟨Mode.clock, i, n⟩ (some Direction.mode)).1
          = ⟨Mode.gif, i, n⟩)
    ∧ (∀ (s : SysState) (ev : Option Direction),
        (clock_step s ev).1.index = s.index)
    ∧ (∀ (s : SysState),
        clock_step s (some Direction.next)
          = (s, [Effect.clockUpdate, Effect.sleep 1])
        ∧ clock_step s (some Direction.previous)
          = (s, [Effect.clockUpdate, Effect.sleep 1])
        ∧ clock_step s none = (s, [Effect.clockUpdate, Effect.sleep 1])) := by
  refine ⟨fun i n => ⟨rfl, rfl⟩, fun s ev => ?_, fun s => ⟨rfl, rfl, rfl⟩⟩
  unfold clock_step
  split <;> rfl

/-- C8: the clock presenter renders 13:05:09 on 2024-03-07 as
"01:05:09 PM" and "2024-03-07"; midnight renders as "12:00:00 AM"; the
hour field maps both 0 and 12 to 12; and the period suffix is "AM"
exactly for hours below 12 and "PM" exactly from 12 on. -/
theorem clock_rendering :
    timeStr ⟨2024, 3, 7, 13, 5, 9⟩ = "01:05:09 PM"
    ∧ dateStr ⟨2024, 3, 7, 13, 5, 9⟩ = "2024-03-07"
    ∧ timeStr ⟨2024, 3, 7, 0, 0, 0⟩ = "12:00:00 AM"
    ∧ hour_12 0 = 12 ∧ hour_12 12 = 12
    ∧ (∀ h : ℕ, (periodOf h = "AM" ↔ h < 12)
        ∧ (periodOf h = "PM" ↔ 12 ≤ h)) := by
  refine ⟨by decide, by decide, by decide, by decide, by decide, ?_⟩
  intro h
  by_cases hh : h < 12
  · constructor
    · simp [periodOf, hh]
    · constructor
      · intro he
        rw [periodOf, if_pos hh] at he
        exact absurd he (by decide)
      · intro hle
        omega
  · constructor
    · constructor
      · intro he
        rw [periodOf, if_neg hh] at he
        exact absurd he (by decide)
      · intro hlt
        exact absurd hlt hh
    · simp only [periodOf, if_neg hh]
      constructor
      · intro _
        omega
      · intro _
        trivial

/-- C9: a failure while obtaining the current time (`time.localtime()`) or
while formatting the time string — both of which precede either label
assignment in the source — leaves both the time label and the date
label exactly as they were: the update is atomic on such a failure. -/
theorem clock_update_atomic_on_failure :
    ∀ (now : Tm) (l : Labels),
      update_clock_display now (some ClockFailPoint.localtime) l = l
      ∧ update_clock_display now (some ClockFailPoint.formatTime) l = l := by
  intro now l
  exact ⟨rfl, rfl⟩

/-- C10: a playback session can only be running or have returned one of
`"next"`, `"previous"`, `"mode"` or `"error"` — never the `True` of the
statement after the frame loop, whose guard is literally `while True:`
so the fall-through path (and the `odg.deinit()` on it) is unreachable;
moreover every returned value carries `deinit = false`. -/
theorem play_gif_result_shape :
    ∀ (openOk : Bool) (evs : List LoopEvent),
      play_gif openOk evs = SessionOutcome.running
      ∨ play_gif openOk evs = SessionOutcome.returned PlayResult.next false
      ∨ play_gif openOk evs
          = SessionOutcome.returned PlayResult.previous false
      ∨ play_gif openOk evs = SessionOutcome.returned PlayResult.mode false
      ∨ play_gif openOk evs
          = SessionOutcome.returned PlayResult.error false := by
  intro openOk evs
  cases openOk with
  | false => simp [play_gif]
  | true =>
    simp only [play_gif, if_true]
    induction evs with
    | nil => left; rfl
    | cons e rest ih =>
      cases e with
      | press d =>
        cases d with
        | next => right; left; rfl
        | previous => right; right; left; rfl
        | mode => right; right; right; left; rfl
      | noPress =>
        simpa [frameLoop, loopCond] using ih
      | raised =>
        right; right; right; right; rfl

end GifPlayer
